import Mathlib

/-!
Shallow embedding of the `larcoreobj` identifier hierarchy
(`larcoreobj/SimpleTypesAndConstants/geo_types.h`,
`larcoreobj/SimpleTypesAndConstants/readout_types.h`) and of the summary
records (`larcoreobj/SummaryData/RunData.*`,
`larcoreobj/SummaryData/POTSummary.*`).

C++ `unsigned int` index fields are modelled as `Nat`; every value an
`unsigned int` can hold is a `Nat`, and none of the embedded operations
performs arithmetic that could overflow, so the embedding is faithful on
the representable range.  The invalid-ID sentinels keep their concrete
C++ values (`2 ^ 32 - 1` for the 32-bit fields, `2 ^ 16 - 1` for the
16-bit `TPCset` field).  C++ inheritance is modelled with `extends`:
the base subobject becomes the `toParent` field.
-/

/-- `geo::CryostatID::ThreeWayComparison` (geo_types.h:288-291):
`(a == b)? 0: ((a < b)? -1: +1)`. -/
def ThreeWayComparison (a b : Nat) : Int :=
  if a = b then 0 else if a < b then -1 else 1

/-- `geo::CryostatID` (geo_types.h:190-293): root of the geometry and
readout hierarchies; the only level carrying a validity flag. -/
structure CryostatID where
  isValid : Bool
  Cryostat : Nat
deriving DecidableEq

/-- `geo::CryostatID::InvalidID = std::numeric_limits<unsigned int>::max()`. -/
def CryostatID.InvalidID : Nat := 2 ^ 32 - 1

/-- Default constructor: `isValid = false`, `Cryostat = InvalidID`
(geo_types.h:211-215). -/
def CryostatID.default : CryostatID := ⟨false, CryostatID.InvalidID⟩

/-- `CryostatID(CryostatID_t c)`: valid ID of cryostat with index `c`. -/
def CryostatID.fromIndices (c : Nat) : CryostatID := ⟨true, c⟩

/-- `CryostatID(CryostatID_t c, bool valid)` (geo_types.h:221-222). -/
def CryostatID.withValidity (c : Nat) (valid : Bool) : CryostatID := ⟨valid, c⟩

/-- `explicit operator bool()` (geo_types.h:228). -/
def CryostatID.boolConv (id : CryostatID) : Bool := id.isValid

/-- `operator!` (geo_types.h:231). -/
def CryostatID.bang (id : CryostatID) : Bool := !id.isValid

/-- `setValidity(bool valid)` (geo_types.h:234). -/
def CryostatID.setValidity (id : CryostatID) (valid : Bool) : CryostatID :=
  ⟨valid, id.Cryostat⟩

/-- `markValid()` (geo_types.h:237). -/
def CryostatID.markValid (id : CryostatID) : CryostatID := id.setValidity true

/-- `markInvalid()` (geo_types.h:240). -/
def CryostatID.markInvalid (id : CryostatID) : CryostatID := id.setValidity false

/-- `deepestIndex()` for `CryostatID`: the cryostat index. -/
def CryostatID.deepestIndex (id : CryostatID) : Nat := id.Cryostat

/-- `geo::CryostatID::cmp` (geo_types.h:271-272). -/
def CryostatID.cmp (a b : CryostatID) : Int :=
  ThreeWayComparison a.deepestIndex b.deepestIndex

/-- `operator== (CryostatID, CryostatID)` (geo_types.h:698-699). -/
def CryostatID.eqOp (a b : CryostatID) : Bool := a.Cryostat == b.Cryostat

/-- `operator!= (CryostatID, CryostatID)` (geo_types.h:702-703). -/
def CryostatID.neOp (a b : CryostatID) : Bool := a.Cryostat != b.Cryostat

/-- `operator< (CryostatID, CryostatID)` (geo_types.h:706-707). -/
def CryostatID.ltOp (a b : CryostatID) : Bool := decide (a.Cryostat < b.Cryostat)

/-- `operator<< (std::ostream&, CryostatID)` (geo_types.h:653-656) composed
with `writeToString`: renders `"C:<index>"`. -/
def CryostatID.toString (id : CryostatID) : String :=
  "C:" ++ Nat.repr id.Cryostat

/-- `geo::ElementLevel::Cryostat`. -/
def CryostatID.Level : Nat := 0

/-- `getAbsIDindex<Index>` instantiated at `CryostatID`
(geo_types.h:54-60): `Index == Level` is forced by the `static_assert`
(`Index <= 0`), so the deepest index is returned. -/
def CryostatID.getIndex (id : CryostatID) (_idx : Nat) : Nat := id.deepestIndex

/-- `geo::OpDetID` (geo_types.h:296-382). -/
structure OpDetID extends CryostatID where
  OpDet : Nat
deriving DecidableEq

/-- `geo::OpDetID::InvalidID`. -/
def OpDetID.InvalidID : Nat := 2 ^ 32 - 1

/-- Default constructor: invalid base, `OpDet = InvalidID`. -/
def OpDetID.default : OpDetID := ⟨CryostatID.default, OpDetID.InvalidID⟩

/-- `OpDetID(CryostatID const& cryoid, OpDetID_t o)` (geo_types.h:326-327). -/
def OpDetID.fromParent (cryoid : CryostatID) (o : Nat) : OpDetID := ⟨cryoid, o⟩

/-- `OpDetID(CryostatID_t c, OpDetID_t o)` (geo_types.h:330). -/
def OpDetID.fromIndices (c o : Nat) : OpDetID := ⟨CryostatID.fromIndices c, o⟩

/-- `parentID()` for `OpDetID`: the cryostat base subobject. -/
def OpDetID.parentID (id : OpDetID) : CryostatID := id.toCryostatID

/-- `deepestIndex()` for `OpDetID`. -/
def OpDetID.deepestIndex (id : OpDetID) : Nat := id.OpDet

/-- `setValidity` reached through the inherited root mutator. -/
def OpDetID.setValidity (id : OpDetID) (valid : Bool) : OpDetID :=
  ⟨id.toCryostatID.setValidity valid, id.OpDet⟩

/-- Inherited `markValid()`. -/
def OpDetID.markValid (id : OpDetID) : OpDetID := id.setValidity true

/-- Inherited `markInvalid()`. -/
def OpDetID.markInvalid (id : OpDetID) : OpDetID := id.setValidity false

/-- `geo::OpDetID::cmp` (geo_types.h:367-374). -/
def OpDetID.cmp (a b : OpDetID) : Int :=
  let r := CryostatID.cmp a.toCryostatID b.toCryostatID
  if r = 0 then ThreeWayComparison a.deepestIndex b.deepestIndex else r

/-- `operator== (OpDetID, OpDetID)` (geo_types.h:711-712). -/
def OpDetID.eqOp (a b : OpDetID) : Bool :=
  CryostatID.eqOp a.toCryostatID b.toCryostatID && a.OpDet == b.OpDet

/-- `operator!= (OpDetID, OpDetID)` (geo_types.h:715-716). -/
def OpDetID.neOp (a b : OpDetID) : Bool :=
  CryostatID.neOp a.toCryostatID b.toCryostatID || a.OpDet != b.OpDet

/-- `operator< (OpDetID, OpDetID)` (geo_types.h:719-725). -/
def OpDetID.ltOp (a b : OpDetID) : Bool :=
  let r := CryostatID.cmp a.toCryostatID b.toCryostatID
  if r = 0 then decide (a.OpDet < b.OpDet) else decide (r < 0)

/-- `operator<< (std::ostream&, OpDetID)` (geo_types.h:660-663). -/
def OpDetID.toString (id : OpDetID) : String :=
  id.toCryostatID.toString ++ " O:" ++ Nat.repr id.OpDet

/-- `geo::ElementLevel::OpDet`. -/
def OpDetID.Level : Nat := 1

/-- `getAbsIDindex<Index>` instantiated at `OpDetID` (geo_types.h:54-60). -/
def OpDetID.getIndex (id : OpDetID) (idx : Nat) : Nat :=
  if idx = OpDetID.Level then id.deepestIndex else id.parentID.getIndex idx

/-- `geo::TPCID` (geo_types.h:386-468). -/
structure TPCID extends CryostatID where
  TPC : Nat
deriving DecidableEq

/-- `geo::TPCID::InvalidID`. -/
def TPCID.InvalidID : Nat := 2 ^ 32 - 1

/-- Default constructor: invalid base, `TPC = InvalidID`. -/
def TPCID.default : TPCID := ⟨CryostatID.default, TPCID.InvalidID⟩

/-- `TPCID(CryostatID const& cryoid, TPCID_t t)` (geo_types.h:412-413). -/
def TPCID.fromParent (cryoid : CryostatID) (t : Nat) : TPCID := ⟨cryoid, t⟩

/-- `TPCID(CryostatID_t c, TPCID_t t)` (geo_types.h:416). -/
def TPCID.fromIndices (c t : Nat) : TPCID := ⟨CryostatID.fromIndices c, t⟩

/-- `parentID()` for `TPCID`. -/
def TPCID.parentID (id : TPCID) : CryostatID := id.toCryostatID

/-- `deepestIndex()` for `TPCID`. -/
def TPCID.deepestIndex (id : TPCID) : Nat := id.TPC

/-- `setValidity` reached through the inherited root mutator. -/
def TPCID.setValidity (id : TPCID) (valid : Bool) : TPCID :=
  ⟨id.toCryostatID.setValidity valid, id.TPC⟩

/-- Inherited `markValid()`. -/
def TPCID.markValid (id : TPCID) : TPCID := id.setValidity true

/-- Inherited `markInvalid()`. -/
def TPCID.markInvalid (id : TPCID) : TPCID := id.setValidity false

/-- `geo::TPCID::cmp` (geo_types.h:453-460). -/
def TPCID.cmp (a b : TPCID) : Int :=
  let r := CryostatID.cmp a.toCryostatID b.toCryostatID
  if r = 0 then ThreeWayComparison a.deepestIndex b.deepestIndex else r

/-- `operator== (TPCID, TPCID)` (geo_types.h:729-733). -/
def TPCID.eqOp (a b : TPCID) : Bool :=
  CryostatID.eqOp a.toCryostatID b.toCryostatID && a.TPC == b.TPC

/-- `operator!= (TPCID, TPCID)` (geo_types.h:736-740). -/
def TPCID.neOp (a b : TPCID) : Bool :=
  CryostatID.neOp a.toCryostatID b.toCryostatID || a.TPC != b.TPC

/-- `operator< (TPCID, TPCID)` (geo_types.h:743-749). -/
def TPCID.ltOp (a b : TPCID) : Bool :=
  let r := CryostatID.cmp a.toCryostatID b.toCryostatID
  if r = 0 then decide (a.TPC < b.TPC) else decide (r < 0)

/-- `operator<< (std::ostream&, TPCID)` (geo_types.h:667-670). -/
def TPCID.toString (id : TPCID) : String :=
  id.toCryostatID.toString ++ " T:" ++ Nat.repr id.TPC

/-- `geo::ElementLevel::TPC`. -/
def TPCID.Level : Nat := 1

/-- `getAbsIDindex<Index>` instantiated at `TPCID`. -/
def TPCID.getIndex (id : TPCID) (idx : Nat) : Nat :=
  if idx = TPCID.Level then id.deepestIndex else id.parentID.getIndex idx

/-- `geo::PlaneID` (geo_types.h:472-556). -/
structure PlaneID extends TPCID where
  Plane : Nat
deriving DecidableEq

/-- `geo::PlaneID::InvalidID`. -/
def PlaneID.InvalidID : Nat := 2 ^ 32 - 1

/-- Default constructor: invalid base, `Plane = InvalidID`. -/
def PlaneID.default : PlaneID := ⟨TPCID.default, PlaneID.InvalidID⟩

/-- `PlaneID(TPCID const& tpcid, PlaneID_t p)` (geo_types.h:499-500). -/
def PlaneID.fromParent (tpcid : TPCID) (p : Nat) : PlaneID := ⟨tpcid, p⟩

/-- `PlaneID(CryostatID_t c, TPCID_t t, PlaneID_t p)` (geo_types.h:503-504). -/
def PlaneID.fromIndices (c t p : Nat) : PlaneID := ⟨TPCID.fromIndices c t, p⟩

/-- `parentID()` for `PlaneID`. -/
def PlaneID.parentID (id : PlaneID) : TPCID := id.toTPCID

/-- `deepestIndex()` for `PlaneID`. -/
def PlaneID.deepestIndex (id : PlaneID) : Nat := id.Plane

/-- `setValidity` reached through the inherited root mutator. -/
def PlaneID.setValidity (id : PlaneID) (valid : Bool) : PlaneID :=
  ⟨id.toTPCID.setValidity valid, id.Plane⟩

/-- Inherited `markValid()`. -/
def PlaneID.markValid (id : PlaneID) : PlaneID := id.setValidity true

/-- Inherited `markInvalid()`. -/
def PlaneID.markInvalid (id : PlaneID) : PlaneID := id.setValidity false

/-- `geo::PlaneID::cmp` (geo_types.h:541-548). -/
def PlaneID.cmp (a b : PlaneID) : Int :=
  let r := TPCID.cmp a.toTPCID b.toTPCID
  if r = 0 then ThreeWayComparison a.deepestIndex b.deepestIndex else r

/-- `operator== (PlaneID, PlaneID)` (geo_types.h:753-757). -/
def PlaneID.eqOp (a b : PlaneID) : Bool :=
  TPCID.eqOp a.toTPCID b.toTPCID && a.Plane == b.Plane

/-- `operator!= (PlaneID, PlaneID)` (geo_types.h:760-764). -/
def PlaneID.neOp (a b : PlaneID) : Bool :=
  TPCID.neOp a.toTPCID b.toTPCID || a.Plane != b.Plane

/-- `operator< (PlaneID, PlaneID)` (geo_types.h:767-773). -/
def PlaneID.ltOp (a b : PlaneID) : Bool :=
  let r := TPCID.cmp a.toTPCID b.toTPCID
  if r = 0 then decide (a.Plane < b.Plane) else decide (r < 0)

/-- `operator<< (std::ostream&, PlaneID)` (geo_types.h:674-677). -/
def PlaneID.toString (id : PlaneID) : String :=
  id.toTPCID.toString ++ " P:" ++ Nat.repr id.Plane

/-- `geo::ElementLevel::Plane`. -/
def PlaneID.Level : Nat := 2

/-- `getAbsIDindex<Index>` instantiated at `PlaneID`. -/
def PlaneID.getIndex (id : PlaneID) (idx : Nat) : Nat :=
  if idx = PlaneID.Level then id.deepestIndex else id.parentID.getIndex idx

/-- `geo::WireID` (geo_types.h:560-646). -/
structure WireID extends PlaneID where
  Wire : Nat
deriving DecidableEq

/-- `geo::WireID::InvalidID`. -/
def WireID.InvalidID : Nat := 2 ^ 32 - 1

/-- Default constructor: invalid base, `Wire = InvalidID`. -/
def WireID.default : WireID := ⟨PlaneID.default, WireID.InvalidID⟩

/-- `WireID(PlaneID const& planeid, WireID_t w)` (geo_types.h:586-587). -/
def WireID.fromParent (planeid : PlaneID) (w : Nat) : WireID := ⟨planeid, w⟩

/-- `WireID(CryostatID_t c, TPCID_t t, PlaneID_t p, WireID_t w)`
(geo_types.h:591-592). -/
def WireID.fromIndices (c t p w : Nat) : WireID := ⟨PlaneID.fromIndices c t p, w⟩

/-- `parentID()` for `WireID`. -/
def WireID.parentID (id : WireID) : PlaneID := id.toPlaneID

/-- `deepestIndex()` for `WireID`. -/
def WireID.deepestIndex (id : WireID) : Nat := id.Wire

/-- `setValidity` reached through the inherited root mutator. -/
def WireID.setValidity (id : WireID) (valid : Bool) : WireID :=
  ⟨id.toPlaneID.setValidity valid, id.Wire⟩

/-- Inherited `markValid()`. -/
def WireID.markValid (id : WireID) : WireID := id.setValidity true

/-- Inherited `markInvalid()`. -/
def WireID.markInvalid (id : WireID) : WireID := id.setValidity false

/-- `geo::WireID::cmp` (geo_types.h:627-634). -/
def WireID.cmp (a b : WireID) : Int :=
  let r := PlaneID.cmp a.toPlaneID b.toPlaneID
  if r = 0 then ThreeWayComparison a.deepestIndex b.deepestIndex else r

/-- `operator== (WireID, WireID)` (geo_types.h:777-781). -/
def WireID.eqOp (a b : WireID) : Bool :=
  PlaneID.eqOp a.toPlaneID b.toPlaneID && a.Wire == b.Wire

/-- `operator!= (WireID, WireID)` (geo_types.h:784-788). -/
def WireID.neOp (a b : WireID) : Bool :=
  PlaneID.neOp a.toPlaneID b.toPlaneID || a.Wire != b.Wire

/-- `operator< (WireID, WireID)` (geo_types.h:791-797). -/
def WireID.ltOp (a b : WireID) : Bool :=
  let r := PlaneID.cmp a.toPlaneID b.toPlaneID
  if r = 0 then decide (a.Wire < b.Wire) else decide (r < 0)

/-- `operator<< (std::ostream&, WireID)` (geo_types.h:681-684). -/
def WireID.toString (id : WireID) : String :=
  id.toPlaneID.toString ++ " W:" ++ Nat.repr id.Wire

/-- `geo::ElementLevel::Wire`. -/
def WireID.Level : Nat := 3

/-- `getAbsIDindex<Index>` instantiated at `WireID`. -/
def WireID.getIndex (id : WireID) (idx : Nat) : Nat :=
  if idx = WireID.Level then id.deepestIndex else id.parentID.getIndex idx

/-- `readout::TPCsetID` (readout_types.h:66-147); its index field is
`unsigned short` (16 bit). -/
structure TPCsetID extends CryostatID where
  TPCset : Nat
deriving DecidableEq

/-- `readout::TPCsetID::InvalidID = std::numeric_limits<unsigned short>::max()`. -/
def TPCsetID.InvalidID : Nat := 2 ^ 16 - 1

/-- Default constructor: invalid base, `TPCset = InvalidID`. -/
def TPCsetID.default : TPCsetID := ⟨CryostatID.default, TPCsetID.InvalidID⟩

/-- `TPCsetID(CryostatID const& cryoid, TPCsetID_t s)` (readout_types.h:93-94). -/
def TPCsetID.fromParent (cryoid : CryostatID) (s : Nat) : TPCsetID := ⟨cryoid, s⟩

/-- `TPCsetID(CryostatID_t c, TPCsetID_t s)` (readout_types.h:97-98). -/
def TPCsetID.fromIndices (c s : Nat) : TPCsetID := ⟨CryostatID.fromIndices c, s⟩

/-- `parentID()` for `TPCsetID`. -/
def TPCsetID.parentID (id : TPCsetID) : CryostatID := id.toCryostatID

/-- `deepestIndex()` for `TPCsetID`. -/
def TPCsetID.deepestIndex (id : TPCsetID) : Nat := id.TPCset

/-- `setValidity` reached through the inherited root mutator. -/
def TPCsetID.setValidity (id : TPCsetID) (valid : Bool) : TPCsetID :=
  ⟨id.toCryostatID.setValidity valid, id.TPCset⟩

/-- Inherited `markValid()`. -/
def TPCsetID.markValid (id : TPCsetID) : TPCsetID := id.setValidity true

/-- Inherited `markInvalid()`. -/
def TPCsetID.markInvalid (id : TPCsetID) : TPCsetID := id.setValidity false

/-- `readout::TPCsetID::cmp` (readout_types.h:132-139). -/
def TPCsetID.cmp (a b : TPCsetID) : Int :=
  let r := CryostatID.cmp a.toCryostatID b.toCryostatID
  if r = 0 then ThreeWayComparison a.TPCset b.TPCset else r

/-- `operator== (TPCsetID, TPCsetID)` (readout_types.h:253-255). -/
def TPCsetID.eqOp (a b : TPCsetID) : Bool :=
  CryostatID.eqOp a.toCryostatID b.toCryostatID && a.TPCset == b.TPCset

/-- `operator!= (TPCsetID, TPCsetID)` (readout_types.h:258-260). -/
def TPCsetID.neOp (a b : TPCsetID) : Bool :=
  CryostatID.neOp a.toCryostatID b.toCryostatID || a.TPCset != b.TPCset

/-- `operator< (TPCsetID, TPCsetID)` (readout_types.h:263-269). -/
def TPCsetID.ltOp (a b : TPCsetID) : Bool :=
  let r := CryostatID.cmp a.toCryostatID b.toCryostatID
  if r = 0 then decide (a.TPCset < b.TPCset) else decide (r < 0)

/-- `operator<< (std::ostream&, TPCsetID)` (readout_types.h:298-301). -/
def TPCsetID.toString (id : TPCsetID) : String :=
  id.toCryostatID.toString ++ " S:" ++ Nat.repr id.TPCset

/-- `readout::ElementLevel::TPCset`. -/
def TPCsetID.Level : Nat := 1

/-- `getAbsIDindex<Index>` instantiated at `TPCsetID`. -/
def TPCsetID.getIndex (id : TPCsetID) (idx : Nat) : Nat :=
  if idx = TPCsetID.Level then id.deepestIndex else id.parentID.getIndex idx

/-- `readout::ROPID` (readout_types.h:161-240). -/
structure ROPID extends TPCsetID where
  ROP : Nat
deriving DecidableEq

/-- `readout::ROPID::InvalidID`. -/
def ROPID.InvalidID : Nat := 2 ^ 32 - 1

/-- Default constructor: invalid base, `ROP = InvalidID`. -/
def ROPID.default : ROPID := ⟨TPCsetID.default, ROPID.InvalidID⟩

/-- `ROPID(TPCsetID const& tpcsetid, ROPID_t r)` (readout_types.h:185-186). -/
def ROPID.fromParent (tpcsetid : TPCsetID) (r : Nat) : ROPID := ⟨tpcsetid, r⟩

/-- `ROPID(CryostatID_t c, TPCsetID_t s, ROPID_t r)` (readout_types.h:190-191). -/
def ROPID.fromIndices (c s r : Nat) : ROPID := ⟨TPCsetID.fromIndices c s, r⟩

/-- `parentID()` for `ROPID`. -/
def ROPID.parentID (id : ROPID) : TPCsetID := id.toTPCsetID

/-- `deepestIndex()` for `ROPID`. -/
def ROPID.deepestIndex (id : ROPID) : Nat := id.ROP

/-- `setValidity` reached through the inherited root mutator. -/
def ROPID.setValidity (id : ROPID) (valid : Bool) : ROPID :=
  ⟨id.toTPCsetID.setValidity valid, id.ROP⟩

/-- Inherited `markValid()`. -/
def ROPID.markValid (id : ROPID) : ROPID := id.setValidity true

/-- Inherited `markInvalid()`. -/
def ROPID.markInvalid (id : ROPID) : ROPID := id.setValidity false

/-- `readout::ROPID::cmp` (readout_types.h:225-232). -/
def ROPID.cmp (a b : ROPID) : Int :=
  let r := TPCsetID.cmp a.toTPCsetID b.toTPCsetID
  if r = 0 then ThreeWayComparison a.ROP b.ROP else r

/-- `operator== (ROPID, ROPID)` (readout_types.h:273-275). -/
def ROPID.eqOp (a b : ROPID) : Bool :=
  TPCsetID.eqOp a.toTPCsetID b.toTPCsetID && a.ROP == b.ROP

/-- `operator!= (ROPID, ROPID)` (readout_types.h:278-280). -/
def ROPID.neOp (a b : ROPID) : Bool :=
  TPCsetID.neOp a.toTPCsetID b.toTPCsetID || a.ROP != b.ROP

/-- `operator< (ROPID, ROPID)` (readout_types.h:283-289). -/
def ROPID.ltOp (a b : ROPID) : Bool :=
  let r := TPCsetID.cmp a.toTPCsetID b.toTPCsetID
  if r = 0 then decide (a.ROP < b.ROP) else decide (r < 0)

/-- `operator<< (std::ostream&, ROPID)` (readout_types.h:303-306). -/
def ROPID.toString (id : ROPID) : String :=
  id.toTPCsetID.toString ++ " R:" ++ Nat.repr id.ROP

/-- `readout::ElementLevel::ReadoutPlane`. -/
def ROPID.Level : Nat := 2

/-- `getAbsIDindex<Index>` instantiated at `ROPID`. -/
def ROPID.getIndex (id : ROPID) (idx : Nat) : Nat :=
  if idx = ROPID.Level then id.deepestIndex else id.parentID.getIndex idx

/-- `sumdata::RunData` (RunData.h): holds the detector name. -/
structure RunData where
  fDetName : String
deriving DecidableEq

/-- `sumdata::RunData::DetName()` (RunData.h). -/
def RunData.DetName (r : RunData) : String := r.fDetName

/-- `sumdata::RunData::aggregate` (RunData.cxx:28-38).  The C++ method is
`void` over mutable state; the embedding returns the post-state of the
receiver together with the outcome: `Except.error` models the thrown
`std::runtime_error` (carrying the exact message built by the source), and
the body contains no assignment, so the post-state is the receiver itself. -/
def RunData.aggregate (self other : RunData) : RunData × Except String Unit :=
  if other.DetName ≠ self.DetName then
    (self, Except.error ("The same run sees different detector setups: \x27"
      ++ self.DetName ++ "\x27 and \x27" ++ other.DetName))
  else
    (self, Except.ok ())

/-- `sumdata::POTSummary` (POTSummary.h:14-27): two `double` counters and
two `int` counters.  The `double` fields are modelled as `Rat`
(field-wise addition of the small decimal values involved here is exact
in IEEE doubles, so rational addition is faithful). -/
structure POTSummary where
  totpot : Rat
  totgoodpot : Rat
  totspills : Int
  goodspills : Int
deriving DecidableEq

/-- Modelled from the spec: `POTSummary::aggregate` is declared in
`POTSummary.h:25` but its definition is not among the sources
(POTSummary.cxx only defines construction and stream output); the spec
states that it "sums all four counters field-wise" with "no failure
conditions". -/
def POTSummary.aggregate (self other : POTSummary) : POTSummary :=
  ⟨self.totpot + other.totpot, self.totgoodpot + other.totgoodpot,
   self.totspills + other.totspills, self.goodspills + other.goodspills⟩

/-!
Spec-side ordering: the lexicographic order over the chain of indices
from the root down, as the spec words it ("compare cryostat index first;
if equal, compare the next level; etc.").  These definitions are written
from the spec, to be compared with the source-derived `cmp`/`ltOp`.
-/

/-- Spec lexicographic order for cryostat IDs. -/
def CryostatID.lexLt (a b : CryostatID) : Prop := a.Cryostat < b.Cryostat

/-- Spec lexicographic order for optical detector IDs. -/
def OpDetID.lexLt (a b : OpDetID) : Prop :=
  a.Cryostat < b.Cryostat ∨ (a.Cryostat = b.Cryostat ∧ a.OpDet < b.OpDet)

/-- Spec lexicographic order for TPC IDs. -/
def TPCID.lexLt (a b : TPCID) : Prop :=
  a.Cryostat < b.Cryostat ∨ (a.Cryostat = b.Cryostat ∧ a.TPC < b.TPC)

/-- Spec lexicographic order for plane IDs. -/
def PlaneID.lexLt (a b : PlaneID) : Prop :=
  a.Cryostat < b.Cryostat ∨ (a.Cryostat = b.Cryostat ∧
    (a.TPC < b.TPC ∨ (a.TPC = b.TPC ∧ a.Plane < b.Plane)))

/-- Spec lexicographic order for wire IDs. -/
def WireID.lexLt (a b : WireID) : Prop :=
  a.Cryostat < b.Cryostat ∨ (a.Cryostat = b.Cryostat ∧
    (a.TPC < b.TPC ∨ (a.TPC = b.TPC ∧
      (a.Plane < b.Plane ∨ (a.Plane = b.Plane ∧ a.Wire < b.Wire)))))

/-- Spec lexicographic order for TPC set IDs. -/
def TPCsetID.lexLt (a b : TPCsetID) : Prop :=
  a.Cryostat < b.Cryostat ∨ (a.Cryostat = b.Cryostat ∧ a.TPCset < b.TPCset)

/-- Spec lexicographic order for readout plane IDs. -/
def ROPID.lexLt (a b : ROPID) : Prop :=
  a.Cryostat < b.Cryostat ∨ (a.Cryostat = b.Cryostat ∧
    (a.TPCset < b.TPCset ∨ (a.TPCset = b.TPCset ∧ a.ROP < b.ROP)))

/-!
Helper lemmas about `ThreeWayComparison` and the step pattern
`if r = 0 then ThreeWayComparison x y else r` shared by every `cmp`.
-/

theorem twc_neg_iff (x y : Nat) : ThreeWayComparison x y < 0 ↔ x < y := by
  simp only [ThreeWayComparison]
  split_ifs <;> simp_all

theorem twc_zero_iff (x y : Nat) : ThreeWayComparison x y = 0 ↔ x = y := by
  simp only [ThreeWayComparison]
  split_ifs <;> simp_all

theorem twc_pos_iff (x y : Nat) : 0 < ThreeWayComparison x y ↔ y < x := by
  simp only [ThreeWayComparison]
  split_ifs <;> simp_all <;> omega

theorem step_neg_iff (r : Int) (s : Int) :
    (if r = 0 then s else r) < 0 ↔ (r < 0 ∨ (r = 0 ∧ s < 0)) := by
  split_ifs with h <;> simp [h]

theorem step_zero_iff (r : Int) (s : Int) :
    (if r = 0 then s else r) = 0 ↔ (r = 0 ∧ s = 0) := by
  split_ifs with h <;> simp [h]

theorem step_pos_iff (r : Int) (s : Int) :
    0 < (if r = 0 then s else r) ↔ (0 < r ∨ (r = 0 ∧ 0 < s)) := by
  split_ifs with h <;> simp [h]

theorem step_lt_decide (r : Int) (x y : Nat) :
    ((if r = 0 then decide (x < y) else decide (r < 0)) = true)
      ↔ ((if r = 0 then ThreeWayComparison x y else r) < 0) := by
  split_ifs with h <;> simp [twc_neg_iff]

/-! Characterizations of the `CryostatID` operations. -/

theorem cryo_cmp_neg (a b : CryostatID) :
    a.cmp b < 0 ↔ a.Cryostat < b.Cryostat :=
  twc_neg_iff a.Cryostat b.Cryostat

theorem cryo_cmp_zero (a b : CryostatID) :
    a.cmp b = 0 ↔ a.Cryostat = b.Cryostat :=
  twc_zero_iff a.Cryostat b.Cryostat

theorem cryo_cmp_pos (a b : CryostatID) :
    0 < a.cmp b ↔ b.Cryostat < a.Cryostat :=
  twc_pos_iff a.Cryostat b.Cryostat

theorem cryo_ltOp_eq (a b : CryostatID) : (a.ltOp b = true) ↔ a.cmp b < 0 := by
  simp [CryostatID.ltOp, cryo_cmp_neg]

theorem cryo_eqOp_iff (a b : CryostatID) :
    (a.eqOp b = true) ↔ a.Cryostat = b.Cryostat := by
  simp [CryostatID.eqOp]

theorem cryo_neOp_iff (a b : CryostatID) :
    (a.neOp b = true) ↔ ¬(a.Cryostat = b.Cryostat) := by
  simp [CryostatID.neOp]

/-! Characterizations of the `OpDetID` operations. -/

theorem opdet_cmp_neg (a b : OpDetID) : a.cmp b < 0 ↔ OpDetID.lexLt a b := by
  simp only [OpDetID.cmp, OpDetID.deepestIndex, OpDetID.lexLt]
  rw [step_neg_iff, cryo_cmp_neg, cryo_cmp_zero, twc_neg_iff]

theorem opdet_cmp_zero (a b : OpDetID) :
    a.cmp b = 0 ↔ (a.Cryostat = b.Cryostat ∧ a.OpDet = b.OpDet) := by
  simp only [OpDetID.cmp, OpDetID.deepestIndex]
  rw [step_zero_iff, cryo_cmp_zero, twc_zero_iff]

theorem opdet_cmp_pos (a b : OpDetID) : 0 < a.cmp b ↔ OpDetID.lexLt b a := by
  simp only [OpDetID.cmp, OpDetID.deepestIndex, OpDetID.lexLt]
  rw [step_pos_iff, cryo_cmp_pos, cryo_cmp_zero, twc_pos_iff]
  omega

theorem opdet_ltOp_eq (a b : OpDetID) : (a.ltOp b = true) ↔ a.cmp b < 0 :=
  step_lt_decide (CryostatID.cmp a.toCryostatID b.toCryostatID) a.OpDet b.OpDet

theorem opdet_eqOp_iff (a b : OpDetID) :
    (a.eqOp b = true) ↔ (a.Cryostat = b.Cryostat ∧ a.OpDet = b.OpDet) := by
  simp [OpDetID.eqOp, cryo_eqOp_iff]

theorem opdet_neOp_iff (a b : OpDetID) :
    (a.neOp b = true) ↔ ¬(a.Cryostat = b.Cryostat ∧ a.OpDet = b.OpDet) := by
  simp [OpDetID.neOp, cryo_neOp_iff]
  tauto

/-! Characterizations of the `TPCID` operations. -/

theorem tpc_cmp_neg (a b : TPCID) : a.cmp b < 0 ↔ TPCID.lexLt a b := by
  simp only [TPCID.cmp, TPCID.deepestIndex, TPCID.lexLt]
  rw [step_neg_iff, cryo_cmp_neg, cryo_cmp_zero, twc_neg_iff]

theorem tpc_cmp_zero (a b : TPCID) :
    a.cmp b = 0 ↔ (a.Cryostat = b.Cryostat ∧ a.TPC = b.TPC) := by
  simp only [TPCID.cmp, TPCID.deepestIndex]
  rw [step_zero_iff, cryo_cmp_zero, twc_zero_iff]

theorem tpc_cmp_pos (a b : TPCID) : 0 < a.cmp b ↔ TPCID.lexLt b a := by
  simp only [TPCID.cmp, TPCID.deepestIndex, TPCID.lexLt]
  rw [step_pos_iff, cryo_cmp_pos, cryo_cmp_zero, twc_pos_iff]
  omega

theorem tpc_ltOp_eq (a b : TPCID) : (a.ltOp b = true) ↔ a.cmp b < 0 :=
  step_lt_decide (CryostatID.cmp a.toCryostatID b.toCryostatID) a.TPC b.TPC

theorem tpc_eqOp_iff (a b : TPCID) :
    (a.eqOp b = true) ↔ (a.Cryostat = b.Cryostat ∧ a.TPC = b.TPC) := by
  simp [TPCID.eqOp, cryo_eqOp_iff]

theorem tpc_neOp_iff (a b : TPCID) :
    (a.neOp b = true) ↔ ¬(a.Cryostat = b.Cryostat ∧ a.TPC = b.TPC) := by
  simp [TPCID.neOp, cryo_neOp_iff]
  tauto

/-! Characterizations of the `PlaneID` operations. -/

theorem plane_cmp_neg (a b : PlaneID) : a.cmp b < 0 ↔ PlaneID.lexLt a b := by
  simp only [PlaneID.cmp, PlaneID.deepestIndex, PlaneID.lexLt, TPCID.lexLt]
  rw [step_neg_iff, tpc_cmp_neg, tpc_cmp_zero, twc_neg_iff]
  simp only [TPCID.lexLt]
  omega

theorem plane_cmp_zero (a b : PlaneID) :
    a.cmp b = 0
      ↔ (a.Cryostat = b.Cryostat ∧ a.TPC = b.TPC ∧ a.Plane = b.Plane) := by
  simp only [PlaneID.cmp, PlaneID.deepestIndex]
  rw [step_zero_iff, tpc_cmp_zero, twc_zero_iff]
  tauto

theorem plane_cmp_pos (a b : PlaneID) : 0 < a.cmp b ↔ PlaneID.lexLt b a := by
  simp only [PlaneID.cmp, PlaneID.deepestIndex, PlaneID.lexLt]
  rw [step_pos_iff, tpc_cmp_pos, tpc_cmp_zero, twc_pos_iff]
  simp only [TPCID.lexLt]
  omega

theorem plane_ltOp_eq (a b : PlaneID) : (a.ltOp b = true) ↔ a.cmp b < 0 :=
  step_lt_decide (TPCID.cmp a.toTPCID b.toTPCID) a.Plane b.Plane

theorem plane_eqOp_iff (a b : PlaneID) :
    (a.eqOp b = true)
      ↔ (a.Cryostat = b.Cryostat ∧ a.TPC = b.TPC ∧ a.Plane = b.Plane) := by
  simp [PlaneID.eqOp, tpc_eqOp_iff]
  tauto

theorem plane_neOp_iff (a b : PlaneID) :
    (a.neOp b = true)
      ↔ ¬(a.Cryostat = b.Cryostat ∧ a.TPC = b.TPC ∧ a.Plane = b.Plane) := by
  simp [PlaneID.neOp, tpc_neOp_iff]
  tauto

/-! Characterizations of the `WireID` operations. -/

theorem wire_cmp_neg (a b : WireID) : a.cmp b < 0 ↔ WireID.lexLt a b := by
  simp only [WireID.cmp, WireID.deepestIndex, WireID.lexLt]
  rw [step_neg_iff, plane_cmp_neg, plane_cmp_zero, twc_neg_iff]
  simp only [PlaneID.lexLt]
  omega

theorem wire_cmp_zero (a b : WireID) :
    a.cmp b = 0
      ↔ (a.Cryostat = b.Cryostat ∧ a.TPC = b.TPC ∧ a.Plane = b.Plane
          ∧ a.Wire = b.Wire) := by
  simp only [WireID.cmp, WireID.deepestIndex]
  rw [step_zero_iff, plane_cmp_zero, twc_zero_iff]
  tauto

theorem wire_cmp_pos (a b : WireID) : 0 < a.cmp b ↔ WireID.lexLt b a := by
  simp only [WireID.cmp, WireID.deepestIndex, WireID.lexLt]
  rw [step_pos_iff, plane_cmp_pos, plane_cmp_zero, twc_pos_iff]
  simp only [PlaneID.lexLt]
  omega

theorem wire_ltOp_eq (a b : WireID) : (a.ltOp b = true) ↔ a.cmp b < 0 :=
  step_lt_decide (PlaneID.cmp a.toPlaneID b.toPlaneID) a.Wire b.Wire

theorem wire_eqOp_iff (a b : WireID) :
    (a.eqOp b = true)
      ↔ (a.Cryostat = b.Cryostat ∧ a.TPC = b.TPC ∧ a.Plane = b.Plane
          ∧ a.Wire = b.Wire) := by
  simp [WireID.eqOp, plane_eqOp_iff]
  tauto

theorem wire_neOp_iff (a b : WireID) :
    (a.neOp b = true)
      ↔ ¬(a.Cryostat = b.Cryostat ∧ a.TPC = b.TPC ∧ a.Plane = b.Plane
          ∧ a.Wire = b.Wire) := by
  simp [WireID.neOp, plane_neOp_iff]
  tauto

/-! Characterizations of the `TPCsetID` operations. -/

theorem tpcset_cmp_neg (a b : TPCsetID) : a.cmp b < 0 ↔ TPCsetID.lexLt a b := by
  simp only [TPCsetID.cmp, TPCsetID.lexLt]
  rw [step_neg_iff, cryo_cmp_neg, cryo_cmp_zero, twc_neg_iff]

theorem tpcset_cmp_zero (a b : TPCsetID) :
    a.cmp b = 0 ↔ (a.Cryostat = b.Cryostat ∧ a.TPCset = b.TPCset) := by
  simp only [TPCsetID.cmp]
  rw [step_zero_iff, cryo_cmp_zero, twc_zero_iff]

theorem tpcset_cmp_pos (a b : TPCsetID) : 0 < a.cmp b ↔ TPCsetID.lexLt b a := by
  simp only [TPCsetID.cmp, TPCsetID.lexLt]
  rw [step_pos_iff, cryo_cmp_pos, cryo_cmp_zero, twc_pos_iff]
  omega

theorem tpcset_ltOp_eq (a b : TPCsetID) : (a.ltOp b = true) ↔ a.cmp b < 0 :=
  step_lt_decide (CryostatID.cmp a.toCryostatID b.toCryostatID) a.TPCset b.TPCset

theorem tpcset_eqOp_iff (a b : TPCsetID) :
    (a.eqOp b = true) ↔ (a.Cryostat = b.Cryostat ∧ a.TPCset = b.TPCset) := by
  simp [TPCsetID.eqOp, cryo_eqOp_iff]

theorem tpcset_neOp_iff (a b : TPCsetID) :
    (a.neOp b = true) ↔ ¬(a.Cryostat = b.Cryostat ∧ a.TPCset = b.TPCset) := by
  simp [TPCsetID.neOp, cryo_neOp_iff]
  tauto

/-! Characterizations of the `ROPID` operations. -/

theorem rop_cmp_neg (a b : ROPID) : a.cmp b < 0 ↔ ROPID.lexLt a b := by
  simp only [ROPID.cmp, ROPID.lexLt]
  rw [step_neg_iff, tpcset_cmp_neg, tpcset_cmp_zero, twc_neg_iff]
  simp only [TPCsetID.lexLt]
  omega

theorem rop_cmp_zero (a b : ROPID) :
    a.cmp b = 0
      ↔ (a.Cryostat = b.Cryostat ∧ a.TPCset = b.TPCset ∧ a.ROP = b.ROP) := by
  simp only [ROPID.cmp]
  rw [step_zero_iff, tpcset_cmp_zero, twc_zero_iff]
  tauto

theorem rop_cmp_pos (a b : ROPID) : 0 < a.cmp b ↔ ROPID.lexLt b a := by
  simp only [ROPID.cmp, ROPID.lexLt]
  rw [step_pos_iff, tpcset_cmp_pos, tpcset_cmp_zero, twc_pos_iff]
  simp only [TPCsetID.lexLt]
  omega

theorem rop_ltOp_eq (a b : ROPID) : (a.ltOp b = true) ↔ a.cmp b < 0 :=
  step_lt_decide (TPCsetID.cmp a.toTPCsetID b.toTPCsetID) a.ROP b.ROP

theorem rop_eqOp_iff (a b : ROPID) :
    (a.eqOp b = true)
      ↔ (a.Cryostat = b.Cryostat ∧ a.TPCset = b.TPCset ∧ a.ROP = b.ROP) := by
  simp [ROPID.eqOp, tpcset_eqOp_iff]
  tauto

theorem rop_neOp_iff (a b : ROPID) :
    (a.neOp b = true)
      ↔ ¬(a.Cryostat = b.Cryostat ∧ a.TPCset = b.TPCset ∧ a.ROP = b.ROP) := by
  simp [ROPID.neOp, tpcset_neOp_iff]
  tauto

/-- C1: for every pair of identifiers of the same type (CryostatID, OpDetID,
TPCID, PlaneID, WireID, TPCsetID, ROPID), both `operator<` and `cmp` order
lexicographically over the chain of indices from the root down: the cryostat
indices are compared first, and only if they are equal is the next level's
index compared, and so on down to the identifiers' own level.  In particular
`PlaneID{1,14,33}` compares less than `PlaneID{1,16,31}` under `operator<`
and `cmp`, because TPC index 14 < 16, irrespective of the plane indices. -/
theorem claim_C1_lexicographic_ordering :
    (∀ a b : CryostatID,
      ((a.ltOp b = true) ↔ CryostatID.lexLt a b)
        ∧ (a.cmp b < 0 ↔ CryostatID.lexLt a b)) ∧
    (∀ a b : OpDetID,
      ((a.ltOp b = true) ↔ OpDetID.lexLt a b)
        ∧ (a.cmp b < 0 ↔ OpDetID.lexLt a b)) ∧
    (∀ a b : TPCID,
      ((a.ltOp b = true) ↔ TPCID.lexLt a b)
        ∧ (a.cmp b < 0 ↔ TPCID.lexLt a b)) ∧
    (∀ a b : PlaneID,
      ((a.ltOp b = true) ↔ PlaneID.lexLt a b)
        ∧ (a.cmp b < 0 ↔ PlaneID.lexLt a b)) ∧
    (∀ a b : WireID,
      ((a.ltOp b = true) ↔ WireID.lexLt a b)
        ∧ (a.cmp b < 0 ↔ WireID.lexLt a b)) ∧
    (∀ a b : TPCsetID,
      ((a.ltOp b = true) ↔ TPCsetID.lexLt a b)
        ∧ (a.cmp b < 0 ↔ TPCsetID.lexLt a b)) ∧
    (∀ a b : ROPID,
      ((a.ltOp b = true) ↔ ROPID.lexLt a b)
        ∧ (a.cmp b < 0 ↔ ROPID.lexLt a b)) ∧
    ((PlaneID.fromIndices 1 14 33).ltOp (PlaneID.fromIndices 1 16 31) = true
      ∧ (PlaneID.fromIndices 1 14 33).cmp (PlaneID.fromIndices 1 16 31) < 0) :=
  ⟨fun a b => ⟨(cryo_ltOp_eq a b).trans (cryo_cmp_neg a b), cryo_cmp_neg a b⟩,
   fun a b => ⟨(opdet_ltOp_eq a b).trans (opdet_cmp_neg a b), opdet_cmp_neg a b⟩,
   fun a b => ⟨(tpc_ltOp_eq a b).trans (tpc_cmp_neg a b), tpc_cmp_neg a b⟩,
   fun a b => ⟨(plane_ltOp_eq a b).trans (plane_cmp_neg a b), plane_cmp_neg a b⟩,
   fun a b => ⟨(wire_ltOp_eq a b).trans (wire_cmp_neg a b), wire_cmp_neg a b⟩,
   fun a b => ⟨(tpcset_ltOp_eq a b).trans (tpcset_cmp_neg a b),
     tpcset_cmp_neg a b⟩,
   fun a b => ⟨(rop_ltOp_eq a b).trans (rop_cmp_neg a b), rop_cmp_neg a b⟩,
   by decide, by decide⟩

/-- C2: for all index pairs of the same identifier type, the three-way
comparison and the relational operators agree: `a.cmp(b) < 0` iff `a < b`
iff b is greater than a (equivalently `b.cmp(a) > 0`; no `operator>` is
defined by the source); `a.cmp(b) == 0` iff `a == b`; and `a.cmp(a) == 0`
for every identifier `a`. -/
theorem claim_C2_cmp_relational_agreement :
    (∀ a b : CryostatID,
      (a.cmp b < 0 ↔ (a.ltOp b = true)) ∧ (a.cmp b < 0 ↔ 0 < b.cmp a)
        ∧ (a.cmp b = 0 ↔ (a.eqOp b = true)) ∧ a.cmp a = 0) ∧
    (∀ a b : OpDetID,
      (a.cmp b < 0 ↔ (a.ltOp b = true)) ∧ (a.cmp b < 0 ↔ 0 < b.cmp a)
        ∧ (a.cmp b = 0 ↔ (a.eqOp b = true)) ∧ a.cmp a = 0) ∧
    (∀ a b : TPCID,
      (a.cmp b < 0 ↔ (a.ltOp b = true)) ∧ (a.cmp b < 0 ↔ 0 < b.cmp a)
        ∧ (a.cmp b = 0 ↔ (a.eqOp b = true)) ∧ a.cmp a = 0) ∧
    (∀ a b : PlaneID,
      (a.cmp b < 0 ↔ (a.ltOp b = true)) ∧ (a.cmp b < 0 ↔ 0 < b.cmp a)
        ∧ (a.cmp b = 0 ↔ (a.eqOp b = true)) ∧ a.cmp a = 0) ∧
    (∀ a b : WireID,
      (a.cmp b < 0 ↔ (a.ltOp b = true)) ∧ (a.cmp b < 0 ↔ 0 < b.cmp a)
        ∧ (a.cmp b = 0 ↔ (a.eqOp b = true)) ∧ a.cmp a = 0) ∧
    (∀ a b : TPCsetID,
      (a.cmp b < 0 ↔ (a.ltOp b = true)) ∧ (a.cmp b < 0 ↔ 0 < b.cmp a)
        ∧ (a.cmp b = 0 ↔ (a.eqOp b = true)) ∧ a.cmp a = 0) ∧
    (∀ a b : ROPID,
      (a.cmp b < 0 ↔ (a.ltOp b = true)) ∧ (a.cmp b < 0 ↔ 0 < b.cmp a)
        ∧ (a.cmp b = 0 ↔ (a.eqOp b = true)) ∧ a.cmp a = 0) :=
  ⟨fun a b => ⟨(cryo_ltOp_eq a b).symm, (cryo_cmp_neg a b).trans
      (cryo_cmp_pos b a).symm, (cryo_cmp_zero a b).trans (cryo_eqOp_iff a b).symm,
      (cryo_cmp_zero a a).mpr rfl⟩,
   fun a b => ⟨(opdet_ltOp_eq a b).symm, (opdet_cmp_neg a b).trans
      (opdet_cmp_pos b a).symm, (opdet_cmp_zero a b).trans
      (opdet_eqOp_iff a b).symm, (opdet_cmp_zero a a).mpr ⟨rfl, rfl⟩⟩,
   fun a b => ⟨(tpc_ltOp_eq a b).symm, (tpc_cmp_neg a b).trans
      (tpc_cmp_pos b a).symm, (tpc_cmp_zero a b).trans (tpc_eqOp_iff a b).symm,
      (tpc_cmp_zero a a).mpr ⟨rfl, rfl⟩⟩,
   fun a b => ⟨(plane_ltOp_eq a b).symm, (plane_cmp_neg a b).trans
      (plane_cmp_pos b a).symm, (plane_cmp_zero a b).trans
      (plane_eqOp_iff a b).symm, (plane_cmp_zero a a).mpr ⟨rfl, rfl, rfl⟩⟩,
   fun a b => ⟨(wire_ltOp_eq a b).symm, (wire_cmp_neg a b).trans
      (wire_cmp_pos b a).symm, (wire_cmp_zero a b).trans
      (wire_eqOp_iff a b).symm, (wire_cmp_zero a a).mpr ⟨rfl, rfl, rfl, rfl⟩⟩,
   fun a b => ⟨(tpcset_ltOp_eq a b).symm, (tpcset_cmp_neg a b).trans
      (tpcset_cmp_pos b a).symm, (tpcset_cmp_zero a b).trans
      (tpcset_eqOp_iff a b).symm, (tpcset_cmp_zero a a).mpr ⟨rfl, rfl⟩⟩,
   fun a b => ⟨(rop_ltOp_eq a b).symm, (rop_cmp_neg a b).trans
      (rop_cmp_pos b a).symm, (rop_cmp_zero a b).trans (rop_eqOp_iff a b).symm,
      (rop_cmp_zero a a).mpr ⟨rfl, rfl, rfl⟩⟩⟩

theorem glue_O (x : String) : " " ++ ("O:" ++ x) = " O:" ++ x := by
  rw [← String.append_assoc]
  rfl

theorem glue_T (x : String) : " " ++ ("T:" ++ x) = " T:" ++ x := by
  rw [← String.append_assoc]
  rfl

theorem glue_P (x : String) : " " ++ ("P:" ++ x) = " P:" ++ x := by
  rw [← String.append_assoc]
  rfl

theorem glue_W (x : String) : " " ++ ("W:" ++ x) = " W:" ++ x := by
  rw [← String.append_assoc]
  rfl

theorem glue_S (x : String) : " " ++ ("S:" ++ x) = " S:" ++ x := by
  rw [← String.append_assoc]
  rfl

theorem glue_R (x : String) : " " ++ ("R:" ++ x) = " R:" ++ x := by
  rw [← String.append_assoc]
  rfl

/-- C3: string rendering of every identifier produces the space-separated
`<Tag>:<index>` tokens from root to leaf with tag letters C (cryostat),
O (optical detector), T (TPC), P (plane), W (wire), S (TPC-set),
R (readout-plane); in particular `WireID{1,5,2,9}` renders as
`"C:1 T:5 P:2 W:9"` and `ROPID{0,1,2}` renders as `"C:0 S:1 R:2"`. -/
theorem claim_C3_string_rendering :
    (∀ id : CryostatID, id.toString
      = String.intercalate " " ["C:" ++ Nat.repr id.Cryostat]) ∧
    (∀ id : OpDetID, id.toString
      = String.intercalate " " ["C:" ++ Nat.repr id.Cryostat,
          "O:" ++ Nat.repr id.OpDet]) ∧
    (∀ id : TPCID, id.toString
      = String.intercalate " " ["C:" ++ Nat.repr id.Cryostat,
          "T:" ++ Nat.repr id.TPC]) ∧
    (∀ id : PlaneID, id.toString
      = String.intercalate " " ["C:" ++ Nat.repr id.Cryostat,
          "T:" ++ Nat.repr id.TPC, "P:" ++ Nat.repr id.Plane]) ∧
    (∀ id : WireID, id.toString
      = String.intercalate " " ["C:" ++ Nat.repr id.Cryostat,
          "T:" ++ Nat.repr id.TPC, "P:" ++ Nat.repr id.Plane,
          "W:" ++ Nat.repr id.Wire]) ∧
    (∀ id : TPCsetID, id.toString
      = String.intercalate " " ["C:" ++ Nat.repr id.Cryostat,
          "S:" ++ Nat.repr id.TPCset]) ∧
    (∀ id : ROPID, id.toString
      = String.intercalate " " ["C:" ++ Nat.repr id.Cryostat,
          "S:" ++ Nat.repr id.TPCset, "R:" ++ Nat.repr id.ROP]) ∧
    (WireID.fromIndices 1 5 2 9).toString = "C:1 T:5 P:2 W:9" ∧
    (ROPID.fromIndices 0 1 2).toString = "C:0 S:1 R:2" := by
  refine ⟨fun id => ?_, fun id => ?_, fun id => ?_, fun id => ?_, fun id => ?_,
    fun id => ?_, fun id => ?_, ?_, ?_⟩ <;>
    simp [CryostatID.toString, OpDetID.toString, TPCID.toString,
      PlaneID.toString, WireID.toString, TPCsetID.toString, ROPID.toString,
      WireID.fromIndices, PlaneID.fromIndices, TPCID.fromIndices,
      ROPID.fromIndices, TPCsetID.fromIndices, CryostatID.fromIndices,
      String.intercalate, String.intercalate.go, String.append_assoc,
      glue_O, glue_T, glue_P, glue_W, glue_S, glue_R] <;>
    rfl

/-- C4: a default-constructed identifier at every level is invalid —
`bool(id)` is `false` and `!id` is `true`, with `!id` always equal to
`!bool(id)` — and every index field it holds equals the maximum
representable value of that field's unsigned integer type (`2^32 - 1` for
the 32-bit cryostat/opdet/TPC/plane/wire/ROP indices, `2^16 - 1` for the
16-bit TPC-set index). -/
theorem claim_C4_default_invalid :
    (CryostatID.default.boolConv = false ∧ CryostatID.default.bang = true
      ∧ CryostatID.default.Cryostat = 2 ^ 32 - 1) ∧
    (OpDetID.default.toCryostatID.boolConv = false
      ∧ OpDetID.default.toCryostatID.bang = true
      ∧ OpDetID.default.Cryostat = 2 ^ 32 - 1
      ∧ OpDetID.default.OpDet = 2 ^ 32 - 1) ∧
    (TPCID.default.toCryostatID.boolConv = false
      ∧ TPCID.default.toCryostatID.bang = true
      ∧ TPCID.default.Cryostat = 2 ^ 32 - 1
      ∧ TPCID.default.TPC = 2 ^ 32 - 1) ∧
    (PlaneID.default.toCryostatID.boolConv = false
      ∧ PlaneID.default.toCryostatID.bang = true
      ∧ PlaneID.default.Cryostat = 2 ^ 32 - 1
      ∧ PlaneID.default.TPC = 2 ^ 32 - 1
      ∧ PlaneID.default.Plane = 2 ^ 32 - 1) ∧
    (WireID.default.toCryostatID.boolConv = false
      ∧ WireID.default.toCryostatID.bang = true
      ∧ WireID.default.Cryostat = 2 ^ 32 - 1
      ∧ WireID.default.TPC = 2 ^ 32 - 1
      ∧ WireID.default.Plane = 2 ^ 32 - 1
      ∧ WireID.default.Wire = 2 ^ 32 - 1) ∧
    (TPCsetID.default.toCryostatID.boolConv = false
      ∧ TPCsetID.default.toCryostatID.bang = true
      ∧ TPCsetID.default.Cryostat = 2 ^ 32 - 1
      ∧ TPCsetID.default.TPCset = 2 ^ 16 - 1) ∧
    (ROPID.default.toCryostatID.boolConv = false
      ∧ ROPID.default.toCryostatID.bang = true
      ∧ ROPID.default.Cryostat = 2 ^ 32 - 1
      ∧ ROPID.default.TPCset = 2 ^ 16 - 1
      ∧ ROPID.default.ROP = 2 ^ 32 - 1) ∧
    (∀ id : CryostatID, id.bang = !id.boolConv) :=
  ⟨⟨rfl, rfl, rfl⟩, ⟨rfl, rfl, rfl, rfl⟩, ⟨rfl, rfl, rfl, rfl⟩,
   ⟨rfl, rfl, rfl, rfl, rfl⟩, ⟨rfl, rfl, rfl, rfl, rfl, rfl⟩,
   ⟨rfl, rfl, rfl, rfl⟩, ⟨rfl, rfl, rfl, rfl, rfl⟩, fun _ => rfl⟩

/-- C5: `RunData::aggregate` succeeds silently when the two records have the
same detector name, and when the names differ it fails with the runtime
error whose message surfaces both conflicting detector names; in the
failing case the receiving record (first component of the result, the
post-state) is unchanged. -/
theorem claim_C5_rundata_aggregate_error :
    ∀ a b : RunData,
      (a.DetName = b.DetName → a.aggregate b = (a, Except.ok ())) ∧
      (a.DetName ≠ b.DetName →
        a.aggregate b
          = (a, Except.error
              ("The same run sees different detector setups: \x27"
                ++ a.DetName ++ "\x27 and \x27" ++ b.DetName))) := by
  intro a b
  constructor
  · intro h
    have hf : b.fDetName = a.fDetName := h.symm
    simp [RunData.aggregate, RunData.DetName, hf]
  · intro h
    simp only [RunData.aggregate]
    rw [if_pos (fun hc => h (hc.symm))]

/-- Witness for C5: concrete evaluations, equal names and differing names. -/
theorem claim_C5_witness :
    (RunData.mk "MicroBooNE").aggregate (RunData.mk "MicroBooNE")
        = (RunData.mk "MicroBooNE", Except.ok ()) ∧
    (RunData.mk "MicroBooNE").aggregate (RunData.mk "SBND")
        = (RunData.mk "MicroBooNE",
           Except.error
             ("The same run sees different detector setups: \x27"
               ++ "MicroBooNE" ++ "\x27 and \x27" ++ "SBND")) :=
  ⟨(claim_C5_rundata_aggregate_error (RunData.mk "MicroBooNE")
      (RunData.mk "MicroBooNE")).1 rfl,
   (claim_C5_rundata_aggregate_error (RunData.mk "MicroBooNE")
      (RunData.mk "SBND")).2 (by decide)⟩

/-- C6: `POTSummary::aggregate` adds each of the four counters of the
argument to the corresponding counter of the receiver (field-wise
addition of `totpot`, `totgoodpot`, `totspills`, `goodspills`), with no
failure condition; the spec's concrete instance evaluates to
`{13, 6, 3, 2}`. -/
theorem claim_C6_potsummary_fieldwise :
    (∀ p q : POTSummary,
      (p.aggregate q).totpot = p.totpot + q.totpot
        ∧ (p.aggregate q).totgoodpot = p.totgoodpot + q.totgoodpot
        ∧ (p.aggregate q).totspills = p.totspills + q.totspills
        ∧ (p.aggregate q).goodspills = p.goodspills + q.goodspills) ∧
    POTSummary.aggregate ⟨10, 5, 2, 1⟩ ⟨3, 1, 1, 1⟩ = ⟨13, 6, 3, 2⟩ :=
  ⟨fun p q => ⟨rfl, rfl, rfl, rfl⟩, by norm_num [POTSummary.aggregate]⟩

/-- C7: for every identifier constructed from its full flattened index
sequence, `deepestIndex()` returns the most-derived constructor argument,
and the level-indexed accessor `getIndex` returns the index stored at the
requested absolute level, walking up through `parentID()`; in particular
for `WireID(1,15,32,27)` the levels 0..3 give 1, 15, 32, 27. -/
theorem claim_C7_deepest_and_level_access :
    (∀ c : Nat, (CryostatID.fromIndices c).deepestIndex = c
      ∧ (CryostatID.fromIndices c).getIndex 0 = c) ∧
    (∀ c o : Nat, (OpDetID.fromIndices c o).deepestIndex = o
      ∧ (OpDetID.fromIndices c o).getIndex 0 = c
      ∧ (OpDetID.fromIndices c o).getIndex 1 = o) ∧
    (∀ c t : Nat, (TPCID.fromIndices c t).deepestIndex = t
      ∧ (TPCID.fromIndices c t).getIndex 0 = c
      ∧ (TPCID.fromIndices c t).getIndex 1 = t) ∧
    (∀ c t p : Nat, (PlaneID.fromIndices c t p).deepestIndex = p
      ∧ (PlaneID.fromIndices c t p).getIndex 0 = c
      ∧ (PlaneID.fromIndices c t p).getIndex 1 = t
      ∧ (PlaneID.fromIndices c t p).getIndex 2 = p) ∧
    (∀ c t p w : Nat, (WireID.fromIndices c t p w).deepestIndex = w
      ∧ (WireID.fromIndices c t p w).getIndex 0 = c
      ∧ (WireID.fromIndices c t p w).getIndex 1 = t
      ∧ (WireID.fromIndices c t p w).getIndex 2 = p
      ∧ (WireID.fromIndices c t p w).getIndex 3 = w) ∧
    (∀ c s : Nat, (TPCsetID.fromIndices c s).deepestIndex = s
      ∧ (TPCsetID.fromIndices c s).getIndex 0 = c
      ∧ (TPCsetID.fromIndices c s).getIndex 1 = s) ∧
    (∀ c s r : Nat, (ROPID.fromIndices c s r).deepestIndex = r
      ∧ (ROPID.fromIndices c s r).getIndex 0 = c
      ∧ (ROPID.fromIndices c s r).getIndex 1 = s
      ∧ (ROPID.fromIndices c s r).getIndex 2 = r) ∧
    ((WireID.fromIndices 1 15 32 27).deepestIndex = 27
      ∧ (WireID.fromIndices 1 15 32 27).getIndex 0 = 1
      ∧ (WireID.fromIndices 1 15 32 27).getIndex 1 = 15
      ∧ (WireID.fromIndices 1 15 32 27).getIndex 2 = 32
      ∧ (WireID.fromIndices 1 15 32 27).getIndex 3 = 27) :=
  ⟨fun _ => ⟨rfl, rfl⟩, fun _ _ => ⟨rfl, rfl, rfl⟩, fun _ _ => ⟨rfl, rfl, rfl⟩,
   fun _ _ _ => ⟨rfl, rfl, rfl, rfl⟩, fun _ _ _ _ => ⟨rfl, rfl, rfl, rfl, rfl⟩,
   fun _ _ => ⟨rfl, rfl, rfl⟩, fun _ _ _ => ⟨rfl, rfl, rfl, rfl⟩,
   ⟨rfl, rfl, rfl, rfl, rfl⟩⟩

/-- C8: equality, inequality, ordering and `cmp` depend only on the chain of
index values, never on the root `isValid` flag: `CryostatID(c, v1)` and
`CryostatID(c, v2)` compare equal with `cmp` 0 for any flags, and flipping
the validity flag of either operand of `==`, `!=`, `<` or `cmp` (at any
level of either hierarchy) leaves the result unchanged. -/
theorem claim_C8_validity_independence :
    (∀ (c : Nat) (v1 v2 : Bool),
      (CryostatID.withValidity c v1).eqOp (CryostatID.withValidity c v2) = true
        ∧ (CryostatID.withValidity c v1).cmp (CryostatID.withValidity c v2)
            = 0) ∧
    (∀ (a b : CryostatID) (v : Bool),
      (a.setValidity v).eqOp b = a.eqOp b ∧ a.eqOp (b.setValidity v) = a.eqOp b
        ∧ (a.setValidity v).neOp b = a.neOp b
        ∧ a.neOp (b.setValidity v) = a.neOp b
        ∧ (a.setValidity v).ltOp b = a.ltOp b
        ∧ a.ltOp (b.setValidity v) = a.ltOp b
        ∧ (a.setValidity v).cmp b = a.cmp b
        ∧ a.cmp (b.setValidity v) = a.cmp b) ∧
    (∀ (a b : OpDetID) (v : Bool),
      (a.setValidity v).eqOp b = a.eqOp b ∧ a.eqOp (b.setValidity v) = a.eqOp b
        ∧ (a.setValidity v).neOp b = a.neOp b
        ∧ a.neOp (b.setValidity v) = a.neOp b
        ∧ (a.setValidity v).ltOp b = a.ltOp b
        ∧ a.ltOp (b.setValidity v) = a.ltOp b
        ∧ (a.setValidity v).cmp b = a.cmp b
        ∧ a.cmp (b.setValidity v) = a.cmp b) ∧
    (∀ (a b : TPCID) (v : Bool),
      (a.setValidity v).eqOp b = a.eqOp b ∧ a.eqOp (b.setValidity v) = a.eqOp b
        ∧ (a.setValidity v).neOp b = a.neOp b
        ∧ a.neOp (b.setValidity v) = a.neOp b
        ∧ (a.setValidity v).ltOp b = a.ltOp b
        ∧ a.ltOp (b.setValidity v) = a.ltOp b
        ∧ (a.setValidity v).cmp b = a.cmp b
        ∧ a.cmp (b.setValidity v) = a.cmp b) ∧
    (∀ (a b : PlaneID) (v : Bool),
      (a.setValidity v).eqOp b = a.eqOp b ∧ a.eqOp (b.setValidity v) = a.eqOp b
        ∧ (a.setValidity v).neOp b = a.neOp b
        ∧ a.neOp (b.setValidity v) = a.neOp b
        ∧ (a.setValidity v).ltOp b = a.ltOp b
        ∧ a.ltOp (b.setValidity v) = a.ltOp b
        ∧ (a.setValidity v).cmp b = a.cmp b
        ∧ a.cmp (b.setValidity v) = a.cmp b) ∧
    (∀ (a b : WireID) (v : Bool),
      (a.setValidity v).eqOp b = a.eqOp b ∧ a.eqOp (b.setValidity v) = a.eqOp b
        ∧ (a.setValidity v).neOp b = a.neOp b
        ∧ a.neOp (b.setValidity v) = a.neOp b
        ∧ (a.setValidity v).ltOp b = a.ltOp b
        ∧ a.ltOp (b.setValidity v) = a.ltOp b
        ∧ (a.setValidity v).cmp b = a.cmp b
        ∧ a.cmp (b.setValidity v) = a.cmp b) ∧
    (∀ (a b : TPCsetID) (v : Bool),
      (a.setValidity v).eqOp b = a.eqOp b ∧ a.eqOp (b.setValidity v) = a.eqOp b
        ∧ (a.setValidity v).neOp b = a.neOp b
        ∧ a.neOp (b.setValidity v) = a.neOp b
        ∧ (a.setValidity v).ltOp b = a.ltOp b
        ∧ a.ltOp (b.setValidity v) = a.ltOp b
        ∧ (a.setValidity v).cmp b = a.cmp b
        ∧ a.cmp (b.setValidity v) = a.cmp b) ∧
    (∀ (a b : ROPID) (v : Bool),
      (a.setValidity v).eqOp b = a.eqOp b ∧ a.eqOp (b.setValidity v) = a.eqOp b
        ∧ (a.setValidity v).neOp b = a.neOp b
        ∧ a.neOp (b.setValidity v) = a.neOp b
        ∧ (a.setValidity v).ltOp b = a.ltOp b
        ∧ a.ltOp (b.setValidity v) = a.ltOp b
        ∧ (a.setValidity v).cmp b = a.cmp b
        ∧ a.cmp (b.setValidity v) = a.cmp b) :=
  ⟨fun c v1 v2 => ⟨by simp [CryostatID.eqOp, CryostatID.withValidity],
      by simp [CryostatID.cmp, CryostatID.deepestIndex, CryostatID.withValidity,
        ThreeWayComparison]⟩,
   fun _ _ _ => ⟨rfl, rfl, rfl, rfl, rfl, rfl, rfl, rfl⟩,
   fun _ _ _ => ⟨rfl, rfl, rfl, rfl, rfl, rfl, rfl, rfl⟩,
   fun _ _ _ => ⟨rfl, rfl, rfl, rfl, rfl, rfl, rfl, rfl⟩,
   fun _ _ _ => ⟨rfl, rfl, rfl, rfl, rfl, rfl, rfl, rfl⟩,
   fun _ _ _ => ⟨rfl, rfl, rfl, rfl, rfl, rfl, rfl, rfl⟩,
   fun _ _ _ => ⟨rfl, rfl, rfl, rfl, rfl, rfl, rfl, rfl⟩,
   fun _ _ _ => ⟨rfl, rfl, rfl, rfl, rfl, rfl, rfl, rfl⟩⟩

/-- C9: `RunData::aggregate` never modifies any state: whether it succeeds
or fails, the post-state of the receiver (first component of the embedded
result) is the receiver itself, so its detector name is unchanged; the
argument is taken by const reference and is likewise untouched. -/
theorem claim_C9_rundata_aggregate_frame :
    ∀ a b : RunData,
      (a.aggregate b).1 = a ∧ (a.aggregate b).1.DetName = a.DetName := by
  intro a b
  unfold RunData.aggregate
  split_ifs <;> exact ⟨rfl, rfl⟩

/-- C10: the validity mutators `setValidity`, `markValid` and `markInvalid`
change only the root `isValid` flag: every index field at every level keeps
its value, so `toString` and all `==`/`cmp` results against any fixed other
identifier are unchanged. -/
theorem claim_C10_validity_mutators_frame :
    (∀ (a b : CryostatID) (v : Bool),
      (a.setValidity v).isValid = v
        ∧ (a.setValidity v).Cryostat = a.Cryostat
        ∧ a.markValid = a.setValidity true ∧ a.markInvalid = a.setValidity false
        ∧ (a.setValidity v).toString = a.toString
        ∧ (a.setValidity v).eqOp b = a.eqOp b
        ∧ a.eqOp (b.setValidity v) = a.eqOp b
        ∧ (a.setValidity v).cmp b = a.cmp b
        ∧ a.cmp (b.setValidity v) = a.cmp b) ∧
    (∀ (a b : OpDetID) (v : Bool),
      (a.setValidity v).isValid = v
        ∧ (a.setValidity v).Cryostat = a.Cryostat
        ∧ (a.setValidity v).OpDet = a.OpDet
        ∧ a.markValid = a.setValidity true ∧ a.markInvalid = a.setValidity false
        ∧ (a.setValidity v).toString = a.toString
        ∧ (a.setValidity v).eqOp b = a.eqOp b
        ∧ a.eqOp (b.setValidity v) = a.eqOp b
        ∧ (a.setValidity v).cmp b = a.cmp b
        ∧ a.cmp (b.setValidity v) = a.cmp b) ∧
    (∀ (a b : TPCID) (v : Bool),
      (a.setValidity v).isValid = v
        ∧ (a.setValidity v).Cryostat = a.Cryostat
        ∧ (a.setValidity v).TPC = a.TPC
        ∧ a.markValid = a.setValidity true ∧ a.markInvalid = a.setValidity false
        ∧ (a.setValidity v).toString = a.toString
        ∧ (a.setValidity v).eqOp b = a.eqOp b
        ∧ a.eqOp (b.setValidity v) = a.eqOp b
        ∧ (a.setValidity v).cmp b = a.cmp b
        ∧ a.cmp (b.setValidity v) = a.cmp b) ∧
    (∀ (a b : PlaneID) (v : Bool),
      (a.setValidity v).isValid = v
        ∧ (a.setValidity v).Cryostat = a.Cryostat
        ∧ (a.setValidity v).TPC = a.TPC
        ∧ (a.setValidity v).Plane = a.Plane
        ∧ a.markValid = a.setValidity true ∧ a.markInvalid = a.setValidity false
        ∧ (a.setValidity v).toString = a.toString
        ∧ (a.setValidity v).eqOp b = a.eqOp b
        ∧ a.eqOp (b.setValidity v) = a.eqOp b
        ∧ (a.setValidity v).cmp b = a.cmp b
        ∧ a.cmp (b.setValidity v) = a.cmp b) ∧
    (∀ (a b : WireID) (v : Bool),
      (a.setValidity v).isValid = v
        ∧ (a.setValidity v).Cryostat = a.Cryostat
        ∧ (a.setValidity v).TPC = a.TPC
        ∧ (a.setValidity v).Plane = a.Plane
        ∧ (a.setValidity v).Wire = a.Wire
        ∧ a.markValid = a.setValidity true ∧ a.markInvalid = a.setValidity false
        ∧ (a.setValidity v).toString = a.toString
        ∧ (a.setValidity v).eqOp b = a.eqOp b
        ∧ a.eqOp (b.setValidity v) = a.eqOp b
        ∧ (a.setValidity v).cmp b = a.cmp b
        ∧ a.cmp (b.setValidity v) = a.cmp b) ∧
    (∀ (a b : TPCsetID) (v : Bool),
      (a.setValidity v).isValid = v
        ∧ (a.setValidity v).Cryostat = a.Cryostat
        ∧ (a.setValidity v).TPCset = a.TPCset
        ∧ a.markValid = a.setValidity true ∧ a.markInvalid = a.setValidity false
        ∧ (a.setValidity v).toString = a.toString
        ∧ (a.setValidity v).eqOp b = a.eqOp b
        ∧ a.eqOp (b.setValidity v) = a.eqOp b
        ∧ (a.setValidity v).cmp b = a.cmp b
        ∧ a.cmp (b.setValidity v) = a.cmp b) ∧
    (∀ (a b : ROPID) (v : Bool),
      (a.setValidity v).isValid = v
        ∧ (a.setValidity v).Cryostat = a.Cryostat
        ∧ (a.setValidity v).TPCset = a.TPCset
        ∧ (a.setValidity v).ROP = a.ROP
        ∧ a.markValid = a.setValidity true ∧ a.markInvalid = a.setValidity false
        ∧ (a.setValidity v).toString = a.toString
        ∧ (a.setValidity v).eqOp b = a.eqOp b
        ∧ a.eqOp (b.setValidity v) = a.eqOp b
        ∧ (a.setValidity v).cmp b = a.cmp b
        ∧ a.cmp (b.setValidity v) = a.cmp b) :=
  ⟨fun _ _ _ => ⟨rfl, rfl, rfl, rfl, rfl, rfl, rfl, rfl, rfl⟩,
   fun _ _ _ => ⟨rfl, rfl, rfl, rfl, rfl, rfl, rfl, rfl, rfl, rfl⟩,
   fun _ _ _ => ⟨rfl, rfl, rfl, rfl, rfl, rfl, rfl, rfl, rfl, rfl⟩,
   fun _ _ _ => ⟨rfl, rfl, rfl, rfl, rfl, rfl, rfl, rfl, rfl, rfl, rfl⟩,
   fun _ _ _ => ⟨rfl, rfl, rfl, rfl, rfl, rfl, rfl, rfl, rfl, rfl, rfl, rfl⟩,
   fun _ _ _ => ⟨rfl, rfl, rfl, rfl, rfl, rfl, rfl, rfl, rfl, rfl⟩,
   fun _ _ _ => ⟨rfl, rfl, rfl, rfl, rfl, rfl, rfl, rfl, rfl, rfl, rfl⟩⟩
